import Mathlib

/-!
Verification of the JobSlave application-automation core: a shallow
embedding of the Naukri site scraper (`NaukriScraper`), the orchestrator
(`JobScraperManager`) and their data model, together with theorems about
the queue-processing loop, the apply state transition, screening-question
discovery and the session counters.

Browser/DOM effects are modelled by explicit environment records
(`QuestionContainer`, `PageEnv`, `MgrEnv`): each field records what the
corresponding DOM query of the source would observe.  Event-sink calls
and UI interactions are recorded in an explicit action trace.
-/

namespace JobSlave

/-- The closed question-type tag of `ScreeningQuestion` (shared/types). -/
inductive QuestionType where
  | text
  | number
  | select
  | multiselect
  | radio
  | checkbox
  deriving Repr, DecidableEq

/-- `ScreeningQuestion` from the shared types: id, text, type tag,
optional option list, required flag, optional filled answer. -/
structure ScreeningQuestion where
  id : String
  question : String
  qtype : QuestionType
  options : Option (List String)
  required : Bool
  answer : Option String
  deriving Repr, DecidableEq

/-- `ApplyResult` from `base/types`: success flag, optional
already-applied flag, optional error string, optional question list. -/
structure ApplyResult where
  success : Bool
  alreadyApplied : Option Bool
  error : Option String
  screeningQuestions : Option (List ScreeningQuestion)
  deriving Repr, DecidableEq

/-- A `Job` listing (the fields `applyToJob` and the resolver read). -/
structure Job where
  id : String
  externalId : String
  title : String
  company : String
  description : Option String
  jobUrl : String
  deriving Repr, DecidableEq

/-- What one screening-question container of the DOM holds, as observed
by the queries of `getScreeningQuestions`: the label text, the select
element with its valued options, the radio inputs with their labels, the
checkbox inputs with their labels, a number input, a required marker. -/
structure QuestionContainer where
  labelText : String
  hasSelect : Bool
  selectOptions : List String
  radioLabels : List String
  checkboxLabels : List String
  hasNumberInput : Bool
  requiredMarker : Bool
  deriving Repr, DecidableEq

/-- The type-sniffing chain of `getScreeningQuestions`, exactly as the
source executes it: `type` starts as `text` and each later check
overwrites it — select, then radio, then checkbox count, then number. -/
def inferType (c : QuestionContainer) : QuestionType :=
  let t0 := QuestionType.text
  let t1 := if c.hasSelect then QuestionType.select else t0
  let t2 := if 0 < c.radioLabels.length then QuestionType.radio else t1
  let t3 :=
    if 1 < c.checkboxLabels.length then QuestionType.multiselect
    else if c.checkboxLabels.length = 1 then QuestionType.checkbox
    else t2
  if c.hasNumberInput then QuestionType.number else t3

/-- Modelled from the spec's words (for comparison with `inferType`,
which is the source's rule): "presence of a select element ⇒ select;
presence of >0 radio inputs ⇒ radio; presence of >1 checkbox inputs ⇒
multiselect; presence of exactly 1 checkbox ⇒ checkbox; presence of a
number input ⇒ number; otherwise text", read as a priority list in which
the earlier rule wins. -/
def specPrecedenceType (c : QuestionContainer) : QuestionType :=
  if c.hasSelect then QuestionType.select
  else if 0 < c.radioLabels.length then QuestionType.radio
  else if 1 < c.checkboxLabels.length then QuestionType.multiselect
  else if c.checkboxLabels.length = 1 then QuestionType.checkbox
  else if c.hasNumberInput then QuestionType.number
  else QuestionType.text

/-- The priority list the source actually implements: because each later
check overwrites `type`, the LAST matching check wins — number, then
multiselect (>1 checkbox), then checkbox (exactly 1), then radio, then
select, then text. -/
def lastCheckWinsType (c : QuestionContainer) : QuestionType :=
  if c.hasNumberInput then QuestionType.number
  else if 1 < c.checkboxLabels.length then QuestionType.multiselect
  else if c.checkboxLabels.length = 1 then QuestionType.checkbox
  else if 0 < c.radioLabels.length then QuestionType.radio
  else if c.hasSelect then QuestionType.select
  else QuestionType.text

/-- Option collection of `getScreeningQuestions`: the select, radio and
multi-checkbox branches each push onto one shared `options` array, in
that order, whenever their control is present. -/
def collectOptions (c : QuestionContainer) : List String :=
  (if c.hasSelect then c.selectOptions else []) ++
    (if 0 < c.radioLabels.length then c.radioLabels else []) ++
      (if 1 < c.checkboxLabels.length then c.checkboxLabels else [])

/-- `getScreeningQuestions`: scan the containers in DOM order; a
container with empty label text is skipped (but still consumes its
positional index); each kept container yields a question with id
`q-<index>`, the sniffed type, the collected options (`undefined` when
none collected) and the required flag. -/
def getScreeningQuestions (cs : List QuestionContainer) : List ScreeningQuestion :=
  cs.enum.filterMap fun p =>
    if p.2.labelText = "" then none
    else
      some
        { id := "q-" ++ toString p.1
          question := p.2.labelText
          qtype := inferType p.2
          options := if (collectOptions p.2).isEmpty then none else some (collectOptions p.2)
          required := p.2.requiredMarker
          answer := none }

/-- A container holding both a select element and a number input: the
source's overwrite chain ends at `number`, while the spec's precedence
list would stop at `select`. -/
def mixedContainer : QuestionContainer :=
  { labelText := "How many years of experience do you have with Excel?"
    hasSelect := true
    selectOptions := ["0-1", "2-4", "5+"]
    radioLabels := []
    checkboxLabels := []
    hasNumberInput := true
    requiredMarker := false }

/-- One observable step of an apply attempt: event-sink calls and UI
interactions, in the order the source performs them. -/
inductive Action where
  | emitStart
  | navigate
  | checkAlready
  | clickApply
  | clickApplyFallback
  | extractQuestions
  | checkSuccess
  | emitComplete (success : Bool)
  | emitError
  | fillAnswer (id : String) (answer : String)
  | logResolveError
  | submitApp
  deriving Repr, DecidableEq

/-- `ScraperState` from `base/types`: login flag, running flag, the job
mid-attempt, and the cumulative session counters. -/
structure ScraperState where
  isLoggedIn : Bool
  isRunning : Bool
  currentJob : Option Job
  appliedCount : Nat
  failedCount : Nat
  deriving Repr, DecidableEq

/-- What the job page shows to the DOM queries of
`NaukriScraper.applyToJob`: whether the browser is already on the job's
page, whether the navigation there throws, the already-applied marker,
the primary apply button, the text-scan fallback apply control, the
count of screening-marker containers seen by `hasScreeningQuestions`,
the question containers seen by `getScreeningQuestions`, and the
success marker seen by `checkApplicationSuccess`. -/
structure PageEnv where
  onJobPage : Bool
  navThrows : Bool
  alreadyApplied : Bool
  applyBtnPrimary : Bool
  applyBtnTextFallback : Bool
  screeningMarkers : Nat
  questionContainers : List QuestionContainer
  successMarker : Bool
  deriving Repr, DecidableEq

/-- `NaukriScraper.applyToJob`, step for step: set `currentJob`, emit
the start event, then inside the try block navigate if needed, check
the already-applied marker, click the apply control (primary selector,
then text fallback), extract screening questions when the marker count
is positive, otherwise check for success; a thrown navigation error is
handled by the catch block (increment `failedCount`, emit completion
and error events); the finally block clears `currentJob` on every exit
path.  Returns the `ApplyResult`, the post state, and the action
trace. -/
def applyToJob (env : PageEnv) (s0 : ScraperState) (job : Job) :
    ApplyResult × ScraperState × List Action :=
  let s1 : ScraperState := { s0 with currentJob := some job }
  let s : ScraperState := { s1 with currentJob := none }
  if !env.onJobPage && env.navThrows then
    (⟨false, none, some "navigation error", none⟩,
      { s with failedCount := s.failedCount + 1 },
      [Action.emitStart, Action.navigate, Action.emitComplete false, Action.emitError])
  else
    let navTr : List Action := if env.onJobPage then [] else [Action.navigate]
    if env.alreadyApplied then
      (⟨false, some true, none, none⟩, s,
        [Action.emitStart] ++ navTr ++ [Action.checkAlready])
    else if !env.applyBtnPrimary && !env.applyBtnTextFallback then
      (⟨false, none, some "Apply button not found", none⟩, s,
        [Action.emitStart] ++ navTr ++ [Action.checkAlready])
    else
      let clickTr : List Action :=
        if env.applyBtnPrimary then [Action.clickApply] else [Action.clickApplyFallback]
      if 0 < env.screeningMarkers then
        (⟨false, none, some "Screening questions require answers",
            some (getScreeningQuestions env.questionContainers)⟩, s,
          [Action.emitStart] ++ navTr ++ [Action.checkAlready] ++ clickTr
            ++ [Action.extractQuestions])
      else if env.successMarker then
        (⟨true, none, none, none⟩,
          { s with appliedCount := s.appliedCount + 1 },
          [Action.emitStart] ++ navTr ++ [Action.checkAlready] ++ clickTr
            ++ [Action.checkSuccess, Action.emitComplete true])
      else
        (⟨false, none, some "Application submission unclear", none⟩, s,
          [Action.emitStart] ++ navTr ++ [Action.checkAlready] ++ clickTr
            ++ [Action.checkSuccess])

/-- A concrete job used to instantiate the theorems. -/
def job0 : Job :=
  { id := "naukri-101"
    externalId := "101"
    title := "Backend Engineer"
    company := "Acme"
    description := none
    jobUrl := "https://www.naukri.com/job-listings-101" }

/-- A fresh session state. -/
def stateZero : ScraperState :=
  { isLoggedIn := true, isRunning := false, currentJob := none
    appliedCount := 0, failedCount := 0 }

/-- A job page with no apply control at all. -/
def envNoButton : PageEnv :=
  { onJobPage := true, navThrows := false, alreadyApplied := false
    applyBtnPrimary := false, applyBtnTextFallback := false
    screeningMarkers := 0, questionContainers := [], successMarker := false }

/-- A job page showing the already-applied marker. -/
def envAlready : PageEnv :=
  { onJobPage := true, navThrows := false, alreadyApplied := true
    applyBtnPrimary := false, applyBtnTextFallback := false
    screeningMarkers := 0, questionContainers := [], successMarker := false }

/-- A job page whose apply succeeds outright. -/
def envSuccess : PageEnv :=
  { onJobPage := true, navThrows := false, alreadyApplied := false
    applyBtnPrimary := true, applyBtnTextFallback := false
    screeningMarkers := 0, questionContainers := [], successMarker := true }

/-- A question container with a plain text control only. -/
def simpleContainer : QuestionContainer :=
  { labelText := "Are you willing to relocate?"
    hasSelect := false, selectOptions := [], radioLabels := []
    checkboxLabels := [], hasNumberInput := false, requiredMarker := true }

/-- A job page whose apply click surfaces one screening question. -/
def envQuestions : PageEnv :=
  { onJobPage := true, navThrows := false, alreadyApplied := false
    applyBtnPrimary := true, applyBtnTextFallback := false
    screeningMarkers := 1, questionContainers := [simpleContainer]
    successMarker := false }

/-- The candidate profile (only its presence matters to the claims). -/
structure UserProfile where
  fullName : String
  deriving Repr, DecidableEq

/-- The synchronous precondition errors `JobScraperManager.applyToJob`
throws before any browser interaction. -/
inductive MgrError where
  | profileNotSet
  | unknownSource
  deriving Repr, DecidableEq

/-- The environment of one orchestrated apply attempt: the scraper's
page environment, whether the requested source is registered, the
Resolver (`screeningService.answerQuestion`) as a fallible function from
a question to an answer string, and the result of
`submitApplication`. -/
structure MgrEnv where
  page : PageEnv
  sourceKnown : Bool
  resolver : ScreeningQuestion → Except String String
  submitSuccess : Bool

/-- One question of the orchestrator's screening loop: on a Resolver
answer the in-memory record is mutated with the answer, on a Resolver
error it is left unchanged (unanswered). -/
def answeredQ (resolver : ScreeningQuestion → Except String String)
    (q : ScreeningQuestion) : ScreeningQuestion :=
  match resolver q with
  | Except.ok a => { q with answer := some a }
  | Except.error _ => q

/-- The trace of one question of the screening loop: a successful
resolution is followed by `fillScreeningAnswer`; a Resolver error is
caught and logged, and no fill happens for that question. -/
def answerActions (resolver : ScreeningQuestion → Except String String)
    (q : ScreeningQuestion) : List Action :=
  match resolver q with
  | Except.ok a => [Action.fillAnswer q.id a]
  | Except.error _ => [Action.logResolveError]

/-- The orchestrator's `for (const question of result.screeningQuestions)`
loop: resolve, fill and annotate each question in order, continuing past
per-question Resolver errors. -/
def answerAll (resolver : ScreeningQuestion → Except String String) :
    List ScreeningQuestion → List ScreeningQuestion × List Action
  | [] => ([], [])
  | q :: rest =>
    let tail := answerAll resolver rest
    (answeredQ resolver q :: tail.1, answerActions resolver q ++ tail.2)

/-- `JobScraperManager.applyToJob`: throw `profileNotSet` when no
profile is set (before touching any scraper), throw `unknownSource` for
an unregistered source, otherwise run the scraper's `applyToJob`; when
its result is unsuccessful and carries a non-empty question list,
answer every question through the Resolver, call `submitApplication`
once, and return a fresh result whose success is the submission result
and which carries the (partially answered) question list; any other
scraper result is returned unchanged. -/
def managerApplyToJob (profile : Option UserProfile) (env : MgrEnv)
    (s : ScraperState) (job : Job) :
    Except MgrError (ApplyResult × ScraperState × List Action) :=
  match profile with
  | none => Except.error MgrError.profileNotSet
  | some _ =>
    if !env.sourceKnown then Except.error MgrError.unknownSource
    else
      let out := applyToJob env.page s job
      let r0 := out.1
      if !r0.success && !(r0.screeningQuestions.getD []).isEmpty then
        let qs := r0.screeningQuestions.getD []
        let ans := answerAll env.resolver qs
        Except.ok
          (⟨env.submitSuccess, none, none, some ans.1⟩, out.2.1,
            out.2.2 ++ ans.2 ++ [Action.submitApp])
      else Except.ok (r0, out.2.1, out.2.2)

/-- Number of `submitApplication` calls recorded in a trace. -/
def submitCount : List Action → Nat
  | [] => 0
  | Action.submitApp :: rest => submitCount rest + 1
  | _ :: rest => submitCount rest

/-- Terminal shape: a plain success, with no flags, no error and no
questions. -/
def isSuccessShape (r : ApplyResult) : Prop :=
  r.success = true ∧ r.alreadyApplied = none ∧ r.error = none ∧ r.screeningQuestions = none

/-- Terminal shape: detected as already applied. -/
def isAlreadyAppliedShape (r : ApplyResult) : Prop :=
  r.success = false ∧ r.alreadyApplied = some true ∧ r.error = none ∧
    r.screeningQuestions = none

/-- Terminal shape: an error with no screening questions. -/
def isPlainErrorShape (r : ApplyResult) : Prop :=
  r.success = false ∧ r.alreadyApplied = none ∧ (∃ e, r.error = some e) ∧
    r.screeningQuestions = none

/-- Terminal shape: screening questions pending; as the source builds
it, this outcome also carries the fixed error string. -/
def isQuestionsPendingShape (r : ApplyResult) : Prop :=
  r.success = false ∧ r.alreadyApplied = none ∧
    r.error = some "Screening questions require answers" ∧
    ∃ qs, r.screeningQuestions = some qs

/-- Exactly one of the four terminal shapes holds. -/
def exactlyOneShape (r : ApplyResult) : Prop :=
  (isSuccessShape r ∨ isAlreadyAppliedShape r ∨ isPlainErrorShape r ∨
      isQuestionsPendingShape r) ∧
    ¬(isSuccessShape r ∧ isAlreadyAppliedShape r) ∧
    ¬(isSuccessShape r ∧ isPlainErrorShape r) ∧
    ¬(isSuccessShape r ∧ isQuestionsPendingShape r) ∧
    ¬(isAlreadyAppliedShape r ∧ isPlainErrorShape r) ∧
    ¬(isAlreadyAppliedShape r ∧ isQuestionsPendingShape r) ∧
    ¬(isPlainErrorShape r ∧ isQuestionsPendingShape r)

/-- The shape of the orchestrator's post-submission outcome: the
question list is carried for audit next to the submission's success
flag, with no error and no already-applied flag. -/
def isPostSubmitShape (r : ApplyResult) : Prop :=
  r.alreadyApplied = none ∧ r.error = none ∧ ∃ qs, r.screeningQuestions = some qs

/-- A concrete profile. -/
def profile0 : UserProfile := { fullName := "Alex Doe" }

/-- A concrete orchestrator environment over the plain success page. -/
def mgrEnv0 : MgrEnv :=
  { page := envSuccess, sourceKnown := true
    resolver := fun _ => Except.ok "Yes", submitSuccess := true }

/-- A question container holding a select control. -/
def selectContainer : QuestionContainer :=
  { labelText := "What is your current location?"
    hasSelect := true, selectOptions := ["Bangalore", "Pune"]
    radioLabels := [], checkboxLabels := [], hasNumberInput := false
    requiredMarker := false }

/-- A job page whose apply click surfaces two screening questions. -/
def envTwoQuestions : PageEnv :=
  { onJobPage := true, navThrows := false, alreadyApplied := false
    applyBtnPrimary := true, applyBtnTextFallback := false
    screeningMarkers := 2, questionContainers := [simpleContainer, selectContainer]
    successMarker := false }

/-- A Resolver that throws for the first question and answers the
rest. -/
def resolverFailFirst : ScreeningQuestion → Except String String := fun q =>
  if q.id = "q-0" then Except.error "LLM transport error" else Except.ok "Yes"

/-- A concrete orchestrator environment realizing Scenario C: two
questions, the Resolver throwing on the first. -/
def mgrEnvC8 : MgrEnv :=
  { page := envTwoQuestions, sourceKnown := true
    resolver := resolverFailFirst, submitSuccess := true }

/-- What one queued job's orchestrated attempt does, as the queue loop
observes it: either a returned `ApplyResult` or a thrown exception
(caught by the loop's try/catch). -/
inductive AttemptOutcome where
  | ok (r : ApplyResult)
  | exn
  deriving Repr, DecidableEq

/-- The counters of one `processJobQueue` run, plus the number of loop
iterations that performed an attempt. -/
structure QueueRun where
  applied : Nat
  failed : Nat
  skipped : Nat
  attempted : Nat
  deriving Repr, DecidableEq

/-- The loop body's classification: `result.success` increments
`applied`, else a truthy `result.alreadyApplied` increments `skipped`,
else `failed`; a thrown exception is caught and increments `failed`. -/
def classifyStep (a : AttemptOutcome) (acc : QueueRun) : QueueRun :=
  match a with
  | AttemptOutcome.exn =>
    { acc with failed := acc.failed + 1, attempted := acc.attempted + 1 }
  | AttemptOutcome.ok r =>
    if r.success then
      { acc with applied := acc.applied + 1, attempted := acc.attempted + 1 }
    else if r.alreadyApplied.getD false then
      { acc with skipped := acc.skipped + 1, attempted := acc.attempted + 1 }
    else
      { acc with failed := acc.failed + 1, attempted := acc.attempted + 1 }

/-- The value the loop condition reads from `shouldStop` before
iteration `i`: `stop()` taking effect at the boundary after `k`
completed attempts is modelled as `stopAfter = some k`. -/
def stopRequestedAt (stopAfter : Option Nat) (i : Nat) : Bool :=
  match stopAfter with
  | none => false
  | some k => decide (k ≤ i)

/-- The `for (let i = 0; i < maxApplications && !this.shouldStop; i++)`
loop over the capped job list. -/
def runLoop : List AttemptOutcome → Nat → Option Nat → QueueRun → QueueRun
  | [], _, _, acc => acc
  | a :: rest, i, stopAfter, acc =>
    if stopRequestedAt stopAfter i then acc
    else runLoop rest (i + 1) stopAfter (classifyStep a acc)

/-- The orchestrator's observable post-loop state: `isRunning` and the
session-complete event payload `(applied, failed)`. -/
structure ManagerPost where
  isRunning : Bool
  sessionComplete : Option (Nat × Nat)
  deriving Repr, DecidableEq

/-- `JobScraperManager.processJobQueue`: cap the list at
`min(jobs.length, maxApplicationsPerSession)`, run the loop from zeroed
counters, then set `isRunning := false` and emit the session-complete
event with the final applied/failed counts — on normal exhaustion and
on cancellation alike. -/
def processJobQueue (attempts : List AttemptOutcome) (cap : Nat)
    (stopAfter : Option Nat) : QueueRun × ManagerPost :=
  let maxApplications := min attempts.length cap
  let run := runLoop (attempts.take maxApplications) 0 stopAfter ⟨0, 0, 0, 0⟩
  (run, { isRunning := false, sessionComplete := some (run.applied, run.failed) })

/-- A concrete queue: two successes, one failure, in a 3-job list. -/
def attempts3 : List AttemptOutcome :=
  [AttemptOutcome.ok ⟨true, none, none, none⟩,
    AttemptOutcome.exn,
    AttemptOutcome.ok ⟨true, none, none, none⟩]

/-- `JobSearchResult` from the shared types. -/
structure JobSearchResult where
  jobs : List Job
  totalCount : Nat
  page : Nat
  hasMore : Bool
  deriving Repr, DecidableEq

/-- What the search page shows `searchJobs`: whether the listings
selector appears before the timeout, the extracted job cards, and the
parsed total count. -/
structure SearchEnv where
  listingsFound : Bool
  extractedJobs : List Job
  totalCount : Nat
  deriving Repr, DecidableEq

/-- `NaukriScraper.searchJobs` result construction: `params.page || 1`
defaults the page (a missing page — and page 0, which is falsy — become
1); if the listings selector never appears the empty result is returned
with `hasMore := false`; otherwise `hasMore` is
`jobs.length > 0 && currentPage * 20 < totalCount`. -/
def searchJobs (env : SearchEnv) (pageParam : Option Nat) : JobSearchResult :=
  let currentPage : Nat :=
    match pageParam with
    | none => 1
    | some p => if p = 0 then 1 else p
  if !env.listingsFound then
    { jobs := [], totalCount := 0, page := currentPage, hasMore := false }
  else
    { jobs := env.extractedJobs
      totalCount := env.totalCount
      page := currentPage
      hasMore := decide (0 < env.extractedJobs.length)
        && decide (currentPage * 20 < env.totalCount) }

/-- A concrete search page with one card and 100 total results. -/
def searchEnv0 : SearchEnv :=
  { listingsFound := true, extractedJobs := [job0], totalCount := 100 }

/-- Claim C1, counterexample: on a container holding both a select
element and a number input, `getScreeningQuestions` types the question
`number`, whereas the precedence list the claim states (select first)
demands `select` — so the claimed fixed precedence is not the one the
code implements. -/
theorem c1_counterexample :
    (getScreeningQuestions [mixedContainer]).map ScreeningQuestion.qtype
        = [QuestionType.number] ∧
      specPrecedenceType mixedContainer = QuestionType.select ∧
      QuestionType.number ≠ QuestionType.select :=
  ⟨rfl, rfl, by decide⟩

/-- Claim C1 (amended): `getScreeningQuestions` infers the type by the
REVERSED priority list — because each later check of the source
overwrites the earlier result, the rule later in the spec's list wins:
number > multiselect (>1 checkbox) > checkbox (exactly 1) > radio (>0
radios) > select > text.  Every question it returns is typed by that
last-check-wins rule applied to its container. -/
theorem c1_type_precedence :
    (∀ c : QuestionContainer, inferType c = lastCheckWinsType c) ∧
      ∀ cs : List QuestionContainer, ∀ q ∈ getScreeningQuestions cs,
        ∃ p ∈ cs.enum, q.qtype = lastCheckWinsType p.2 := by
  have key : ∀ c : QuestionContainer, inferType c = lastCheckWinsType c := by
    intro c
    unfold inferType lastCheckWinsType
    by_cases hn : c.hasNumberInput = true <;>
      by_cases h2 : 1 < c.checkboxLabels.length <;>
        by_cases h1 : c.checkboxLabels.length = 1 <;>
          by_cases hr : 0 < c.radioLabels.length <;>
            by_cases hs : c.hasSelect = true <;>
              simp [hn, h2, h1, hr, hs]
  refine ⟨key, ?_⟩
  intro cs q hq
  unfold getScreeningQuestions at hq
  rw [List.mem_filterMap] at hq
  obtain ⟨p, hp, he⟩ := hq
  refine ⟨p, hp, ?_⟩
  by_cases hl : p.2.labelText = ""
  · simp [hl] at he
  · simp [hl] at he
    rw [← he, ← key]

/-- Witness for C1 (amended) at concrete containers: the mixed
container's type agrees with the last-check-wins rule, and the single
question extracted from the simple container is typed by that rule. -/
theorem c1_type_precedence_witness :
    (inferType mixedContainer = lastCheckWinsType mixedContainer) ∧
      ∃ p ∈ ([simpleContainer] : List QuestionContainer).enum,
        (⟨"q-0", "Are you willing to relocate?", QuestionType.text,
            none, true, none⟩ : ScreeningQuestion).qtype = lastCheckWinsType p.2 :=
  ⟨c1_type_precedence.1 mixedContainer,
    c1_type_precedence.2 [simpleContainer] _ (by decide)⟩

/-- Claim C10: on every exit path of the scraper's `applyToJob` —
success, already-applied, error return, screening-pending return, and
the caught navigation exception alike — the finally block leaves
`currentJob` equal to `none`. -/
theorem c10_currentJob_cleared (env : PageEnv) (s0 : ScraperState) (job : Job) :
    ((applyToJob env s0 job).2.1).currentJob = none := by
  unfold applyToJob
  by_cases h1 : (!env.onJobPage && env.navThrows) = true <;>
    by_cases h2 : env.alreadyApplied = true <;>
      by_cases h3 : (!env.applyBtnPrimary && !env.applyBtnTextFallback) = true <;>
        by_cases h4 : 0 < env.screeningMarkers <;>
          by_cases h5 : env.successMarker = true <;>
            simp [h1, h2, h3, h4, h5]

/-- Claim C5: when the already-applied marker is present before any
click (and the attempt is not aborted by a navigation throw, which
would prevent the marker from being observed), `applyToJob` returns
`success := false, alreadyApplied := some true` with no error and no
questions, performs no click, no question extraction, no
success-detection and no submission, and leaves both session counters
unchanged. -/
theorem c5_already_applied_short_circuit (env : PageEnv) (s0 : ScraperState) (job : Job)
    (halready : env.alreadyApplied = true)
    (hnoexn : (!env.onJobPage && env.navThrows) = false) :
    (applyToJob env s0 job).1 = ⟨false, some true, none, none⟩ ∧
      Action.clickApply ∉ (applyToJob env s0 job).2.2 ∧
      Action.clickApplyFallback ∉ (applyToJob env s0 job).2.2 ∧
      Action.extractQuestions ∉ (applyToJob env s0 job).2.2 ∧
      Action.checkSuccess ∉ (applyToJob env s0 job).2.2 ∧
      Action.submitApp ∉ (applyToJob env s0 job).2.2 ∧
      (applyToJob env s0 job).2.1.appliedCount = s0.appliedCount ∧
      (applyToJob env s0 job).2.1.failedCount = s0.failedCount := by
  unfold applyToJob
  by_cases ho : env.onJobPage = true <;>
    simp [halready, hnoexn, ho] <;>
      simp [ho] at hnoexn <;> simp [hnoexn]

/-- Witness for C5 at the concrete already-applied page. -/
theorem c5_already_applied_short_circuit_witness :
    (applyToJob envAlready stateZero job0).1 = ⟨false, some true, none, none⟩ ∧
      Action.clickApply ∉ (applyToJob envAlready stateZero job0).2.2 ∧
      Action.clickApplyFallback ∉ (applyToJob envAlready stateZero job0).2.2 ∧
      Action.extractQuestions ∉ (applyToJob envAlready stateZero job0).2.2 ∧
      Action.checkSuccess ∉ (applyToJob envAlready stateZero job0).2.2 ∧
      Action.submitApp ∉ (applyToJob envAlready stateZero job0).2.2 ∧
      (applyToJob envAlready stateZero job0).2.1.appliedCount = stateZero.appliedCount ∧
      (applyToJob envAlready stateZero job0).2.1.failedCount = stateZero.failedCount :=
  c5_already_applied_short_circuit envAlready stateZero job0 rfl rfl

/-- Claim C3, counterexample: the apply-button-not-found path is a
failed, non-screening apply, yet it leaves `failedCount` unchanged —
only the thrown-exception catch path increments `failedCount`, so the
claim that every failed (non-screening) apply increments it is false. -/
theorem c3_counterexample :
    (applyToJob envNoButton stateZero job0).1.success = false ∧
      (applyToJob envNoButton stateZero job0).1.screeningQuestions = none ∧
      (applyToJob envNoButton stateZero job0).1.alreadyApplied = none ∧
      (applyToJob envNoButton stateZero job0).1.error = some "Apply button not found" ∧
      (applyToJob envNoButton stateZero job0).2.1.failedCount = stateZero.failedCount :=
  ⟨rfl, rfl, rfl, rfl, rfl⟩

/-- Claim C3 (amended): `appliedCount` is incremented exactly on the
success path and `failedCount` exactly on the caught-exception path;
every error-return failure (button not found, submission unclear), the
already-applied return and the screening-pending return leave both
counters unchanged — in particular an outcome carrying pending
screening questions changes neither counter. -/
theorem c3_counter_updates (env : PageEnv) (s0 : ScraperState) (job : Job) :
    ((applyToJob env s0 job).2.1.appliedCount
        = s0.appliedCount + (if (applyToJob env s0 job).1.success = true then 1 else 0)) ∧
      ((applyToJob env s0 job).2.1.failedCount
        = s0.failedCount + (if (!env.onJobPage && env.navThrows) = true then 1 else 0)) ∧
      ((applyToJob env s0 job).1.screeningQuestions.isSome →
        (applyToJob env s0 job).2.1.appliedCount = s0.appliedCount ∧
          (applyToJob env s0 job).2.1.failedCount = s0.failedCount) := by
  unfold applyToJob
  by_cases h1 : (!env.onJobPage && env.navThrows) = true <;>
    by_cases h2 : env.alreadyApplied = true <;>
      by_cases h3 : (!env.applyBtnPrimary && !env.applyBtnTextFallback) = true <;>
        by_cases h4 : 0 < env.screeningMarkers <;>
          by_cases h5 : env.successMarker = true <;>
            simp [h1, h2, h3, h4, h5]

/-- Witness for C3 (amended): on the concrete screening-pending page,
the screening-pending implication of the theorem is discharged and both
counters are unchanged. -/
theorem c3_counter_updates_witness :
    (applyToJob envQuestions stateZero job0).2.1.appliedCount = stateZero.appliedCount ∧
      (applyToJob envQuestions stateZero job0).2.1.failedCount = stateZero.failedCount :=
  (c3_counter_updates envQuestions stateZero job0).2.2 rfl

theorem submitCount_append (l1 l2 : List Action) :
    submitCount (l1 ++ l2) = submitCount l1 + submitCount l2 := by
  induction l1 with
  | nil => simp [submitCount]
  | cons a rest ih =>
    cases a <;> simp [submitCount, ih] <;> omega

/-- The scraper's own `applyToJob` never submits. -/
theorem applyToJob_no_submit (env : PageEnv) (s0 : ScraperState) (job : Job) :
    submitCount (applyToJob env s0 job).2.2 = 0 := by
  unfold applyToJob
  by_cases ho : env.onJobPage = true <;>
    by_cases hn : env.navThrows = true <;>
      by_cases h2 : env.alreadyApplied = true <;>
        by_cases hp : env.applyBtnPrimary = true <;>
          by_cases hf : env.applyBtnTextFallback = true <;>
            by_cases h4 : 0 < env.screeningMarkers <;>
              by_cases h5 : env.successMarker = true <;>
                simp [ho, hn, h2, hp, hf, h4, h5, submitCount]

/-- The screening loop never submits. -/
theorem answerAll_no_submit (resolver : ScreeningQuestion → Except String String)
    (qs : List ScreeningQuestion) :
    submitCount (answerAll resolver qs).2 = 0 := by
  induction qs with
  | nil => simp [answerAll, submitCount]
  | cons q rest ih =>
    simp [answerAll, submitCount_append, ih]
    unfold answerActions
    cases resolver q <;> simp [submitCount]

/-- The answered list is the in-order image of the question list. -/
theorem answerAll_fst (resolver : ScreeningQuestion → Except String String)
    (qs : List ScreeningQuestion) :
    (answerAll resolver qs).1 = qs.map (answeredQ resolver) := by
  induction qs with
  | nil => simp [answerAll]
  | cons q rest ih => simp [answerAll, ih]

/-- The fills of the screening loop are exactly the resolved questions,
in order, with their ids and answers. -/
theorem answerAll_fills (resolver : ScreeningQuestion → Except String String)
    (qs : List ScreeningQuestion) :
    (answerAll resolver qs).2.filterMap
        (fun a =>
          match a with
          | Action.fillAnswer i ans => some (i, ans)
          | _ => none)
      = qs.filterMap
          (fun q =>
            match resolver q with
            | Except.ok a => some (q.id, a)
            | Except.error _ => none) := by
  induction qs with
  | nil => simp [answerAll]
  | cons q rest ih =>
    simp [answerAll]
    unfold answerActions
    cases h : resolver q <;> simp [h, ih]

/-- No two of the four terminal shapes can hold of one result. -/
theorem shapes_pairwise_exclusive (r : ApplyResult) :
    ¬(isSuccessShape r ∧ isAlreadyAppliedShape r) ∧
      ¬(isSuccessShape r ∧ isPlainErrorShape r) ∧
      ¬(isSuccessShape r ∧ isQuestionsPendingShape r) ∧
      ¬(isAlreadyAppliedShape r ∧ isPlainErrorShape r) ∧
      ¬(isAlreadyAppliedShape r ∧ isQuestionsPendingShape r) ∧
      ¬(isPlainErrorShape r ∧ isQuestionsPendingShape r) := by
  unfold isSuccessShape isAlreadyAppliedShape isPlainErrorShape isQuestionsPendingShape
  refine ⟨?_, ?_, ?_, ?_, ?_, ?_⟩ <;> rintro ⟨h1, h2⟩
  · rw [h1.1] at h2; exact absurd h2.1 (by simp)
  · rw [h1.1] at h2; exact absurd h2.1 (by simp)
  · rw [h1.1] at h2; exact absurd h2.1 (by simp)
  · rw [h1.2.1] at h2; exact absurd h2.2.1 (by simp)
  · rw [h1.2.1] at h2; exact absurd h2.2.1 (by simp)
  · obtain ⟨qs, hqs⟩ := h2.2.2; rw [h1.2.2.2] at hqs; exact absurd hqs (by simp)

/-- Claim C4, counterexample: the screening-pending outcome the scraper
returns carries BOTH pending questions and an error string, so it
combines two of the claim's supposedly exclusive shapes. -/
theorem c4_counterexample :
    (applyToJob envQuestions stateZero job0).1.error
        = some "Screening questions require answers" ∧
      (applyToJob envQuestions stateZero job0).1.screeningQuestions
        = some (getScreeningQuestions [simpleContainer]) ∧
      getScreeningQuestions [simpleContainer] ≠ [] :=
  ⟨rfl, rfl, by decide⟩

/-- Claim C4 (amended): every outcome of the scraper's `applyToJob` has
exactly one of the four terminal shapes, where the questions-pending
shape carries the fixed error string "Screening questions require
answers" alongside the questions; the orchestrator's `applyToJob`
returns either such an outcome unchanged or a post-submission outcome
that carries the question list with no error and the submission's
success flag. -/
theorem c4_outcome_shapes :
    (∀ env s job, exactlyOneShape (applyToJob env s job).1) ∧
      ∀ p env s job out, managerApplyToJob (some p) env s job = Except.ok out →
        exactlyOneShape out.1 ∨ isPostSubmitShape out.1 := by
  have hscraper : ∀ env s job, exactlyOneShape (applyToJob env s job).1 := by
    intro env s job
    refine ⟨?_, shapes_pairwise_exclusive _⟩
    unfold applyToJob
    unfold isSuccessShape isAlreadyAppliedShape isPlainErrorShape isQuestionsPendingShape
    by_cases ho : env.onJobPage = true <;>
      by_cases hn : env.navThrows = true <;>
        by_cases h2 : env.alreadyApplied = true <;>
          by_cases hp : env.applyBtnPrimary = true <;>
            by_cases hf : env.applyBtnTextFallback = true <;>
              by_cases h4 : 0 < env.screeningMarkers <;>
                by_cases h5 : env.successMarker = true <;>
                  simp [ho, hn, h2, hp, hf, h4, h5]
  refine ⟨hscraper, ?_⟩
  intro p env s job out h
  unfold managerApplyToJob at h
  by_cases hk : env.sourceKnown = true
  · simp only [hk, Bool.not_true, Bool.false_eq_true, if_false] at h
    by_cases hcond :
        (!(applyToJob env.page s job).1.success &&
          !((applyToJob env.page s job).1.screeningQuestions.getD []).isEmpty) = true
    · rw [if_pos hcond] at h
      cases h
      right
      exact ⟨rfl, rfl, _, rfl⟩
    · rw [if_neg hcond] at h
      cases h
      left
      exact hscraper env.page s job
  · simp [hk] at h

/-- Witness for C4: the orchestrator's outcome on a concrete successful
run is one of the allowed shapes. -/
theorem c4_outcome_shapes_witness :
    exactlyOneShape (⟨true, none, none, none⟩ : ApplyResult) ∨
      isPostSubmitShape (⟨true, none, none, none⟩ : ApplyResult) :=
  c4_outcome_shapes.2 ⟨"Alex"⟩
    { page := envSuccess, sourceKnown := true
      resolver := fun _ => Except.ok "Yes", submitSuccess := true }
    stateZero job0
    (⟨true, none, none, none⟩,
      { stateZero with appliedCount := stateZero.appliedCount + 1 },
      [Action.emitStart, Action.checkAlready, Action.clickApply,
        Action.checkSuccess, Action.emitComplete true])
    rfl

/-- Claim C7: with no profile set, the orchestrator's `applyToJob`
throws the profile precondition error synchronously — the error value
carries no scraper state and no action trace, so no scraper or browser
interaction has happened; with a profile set, that error can never be
the result. -/
theorem c7_profile_required :
    (∀ env s job, managerApplyToJob none env s job = Except.error MgrError.profileNotSet) ∧
      ∀ p env s job,
        managerApplyToJob (some p) env s job ≠ Except.error MgrError.profileNotSet := by
  constructor
  · intro env s job; rfl
  · intro p env s job h
    unfold managerApplyToJob at h
    by_cases hk : env.sourceKnown = true
    · simp only [hk, Bool.not_true, Bool.false_eq_true, if_false] at h
      by_cases hcond :
          (!(applyToJob env.page s job).1.success &&
            !((applyToJob env.page s job).1.screeningQuestions.getD []).isEmpty) = true
      · rw [if_pos hcond] at h; exact Except.noConfusion h
      · rw [if_neg hcond] at h; exact Except.noConfusion h
    · simp [hk] at h

/-- Witness for C7 at a concrete environment: the no-profile call is
the precondition error, and the same call with a profile is not. -/
theorem c7_profile_required_witness :
    managerApplyToJob none mgrEnv0 stateZero job0 = Except.error MgrError.profileNotSet ∧
      managerApplyToJob (some profile0) mgrEnv0 stateZero job0
        ≠ Except.error MgrError.profileNotSet :=
  ⟨c7_profile_required.1 mgrEnv0 stateZero job0,
    c7_profile_required.2 profile0 mgrEnv0 stateZero job0⟩

/-- Claim C8: when the scraper's attempt returns pending screening
questions, the orchestrator resolves and fills the questions in order,
catching (and only logging) any per-question Resolver error so that the
remaining questions are still processed and the failed one stays
unanswered; afterwards `submitApplication` is called exactly once and
the returned outcome has the submission's success flag and carries the
question list. -/
theorem c8_resolver_failure_continues (p : UserProfile) (env : MgrEnv)
    (s : ScraperState) (job : Job) (qs : List ScreeningQuestion)
    (hk : env.sourceKnown = true)
    (hfail : (applyToJob env.page s job).1.success = false)
    (hqs : (applyToJob env.page s job).1.screeningQuestions = some qs)
    (hne : qs ≠ []) :
    managerApplyToJob (some p) env s job
        = Except.ok
            (⟨env.submitSuccess, none, none, some (qs.map (answeredQ env.resolver))⟩,
              (applyToJob env.page s job).2.1,
              (applyToJob env.page s job).2.2 ++ (answerAll env.resolver qs).2
                ++ [Action.submitApp]) ∧
      submitCount
          ((applyToJob env.page s job).2.2 ++ (answerAll env.resolver qs).2
            ++ [Action.submitApp]) = 1 ∧
      (∀ q ∈ qs, ∀ e, env.resolver q = Except.error e → answeredQ env.resolver q = q) ∧
      (answerAll env.resolver qs).2.filterMap
          (fun a =>
            match a with
            | Action.fillAnswer i ans => some (i, ans)
            | _ => none)
        = qs.filterMap
            (fun q =>
              match env.resolver q with
              | Except.ok a => some (q.id, a)
              | Except.error _ => none) := by
  have hgd : ((applyToJob env.page s job).1.screeningQuestions.getD []) = qs := by
    rw [hqs]; rfl
  have hempty : qs.isEmpty = false := by
    cases qs with
    | nil => exact absurd rfl hne
    | cons a l => rfl
  have hcond :
      (!(applyToJob env.page s job).1.success &&
        !((applyToJob env.page s job).1.screeningQuestions.getD []).isEmpty) = true := by
    rw [hfail, hgd, hempty]; rfl
  refine ⟨?_, ?_, ?_, answerAll_fills env.resolver qs⟩
  · unfold managerApplyToJob
    simp only [hk, Bool.not_true, Bool.false_eq_true, if_false]
    rw [if_pos hcond, hgd, answerAll_fst]
  · rw [submitCount_append, submitCount_append, applyToJob_no_submit,
      answerAll_no_submit]
    rfl
  · intro q _ e he
    unfold answeredQ
    rw [he]

/-- Witness for C8 in the two-question, first-resolution-fails
scenario. -/
theorem c8_resolver_failure_continues_witness :
    managerApplyToJob (some profile0) mgrEnvC8 stateZero job0
        = Except.ok
            (⟨mgrEnvC8.submitSuccess, none, none,
                some ((getScreeningQuestions envTwoQuestions.questionContainers).map
                  (answeredQ mgrEnvC8.resolver))⟩,
              (applyToJob mgrEnvC8.page stateZero job0).2.1,
              (applyToJob mgrEnvC8.page stateZero job0).2.2
                ++ (answerAll mgrEnvC8.resolver
                      (getScreeningQuestions envTwoQuestions.questionContainers)).2
                ++ [Action.submitApp]) ∧
      submitCount
          ((applyToJob mgrEnvC8.page stateZero job0).2.2
            ++ (answerAll mgrEnvC8.resolver
                  (getScreeningQuestions envTwoQuestions.questionContainers)).2
            ++ [Action.submitApp]) = 1 :=
  ⟨(c8_resolver_failure_continues profile0 mgrEnvC8 stateZero job0
      (getScreeningQuestions envTwoQuestions.questionContainers) rfl rfl rfl
      (by decide)).1,
    (c8_resolver_failure_continues profile0 mgrEnvC8 stateZero job0
      (getScreeningQuestions envTwoQuestions.questionContainers) rfl rfl rfl
      (by decide)).2.1⟩

theorem classifyStep_attempted (a : AttemptOutcome) (acc : QueueRun) :
    (classifyStep a acc).attempted = acc.attempted + 1 := by
  cases a with
  | exn => rfl
  | ok r =>
    unfold classifyStep
    by_cases hs : r.success = true <;>
      by_cases ha : r.alreadyApplied.getD false = true <;>
        simp [hs, ha]

theorem classifyStep_sum (a : AttemptOutcome) (acc : QueueRun) :
    (classifyStep a acc).applied + (classifyStep a acc).failed
        + (classifyStep a acc).skipped
      = acc.applied + acc.failed + acc.skipped + 1 := by
  cases a with
  | exn => simp [classifyStep]; omega
  | ok r =>
    unfold classifyStep
    by_cases hs : r.success = true <;>
      by_cases ha : r.alreadyApplied.getD false = true <;>
        simp [hs, ha] <;> omega

theorem runLoop_none_attempted (l : List AttemptOutcome) :
    ∀ (i : Nat) (acc : QueueRun),
      (runLoop l i none acc).attempted = acc.attempted + l.length := by
  induction l with
  | nil => intro i acc; simp [runLoop]
  | cons a rest ih =>
    intro i acc
    simp only [runLoop, stopRequestedAt, Bool.false_eq_true, if_false]
    rw [ih, classifyStep_attempted]
    simp
    omega

theorem runLoop_none_sum (l : List AttemptOutcome) :
    ∀ (i : Nat) (acc : QueueRun),
      (runLoop l i none acc).applied + (runLoop l i none acc).failed
          + (runLoop l i none acc).skipped
        = acc.applied + acc.failed + acc.skipped + l.length := by
  induction l with
  | nil => intro i acc; simp [runLoop]
  | cons a rest ih =>
    intro i acc
    simp only [runLoop, stopRequestedAt, Bool.false_eq_true, if_false]
    rw [ih]
    have := classifyStep_sum a acc
    simp
    omega

theorem runLoop_stop_attempted (l : List AttemptOutcome) :
    ∀ (i k : Nat) (acc : QueueRun),
      (runLoop l i (some k) acc).attempted = acc.attempted + min l.length (k - i) := by
  induction l with
  | nil => intro i k acc; simp [runLoop]
  | cons a rest ih =>
    intro i k acc
    simp only [runLoop, stopRequestedAt]
    by_cases hk : k ≤ i
    · rw [if_pos (decide_eq_true hk)]
      simp only [List.length_cons]
      omega
    · rw [if_neg (by simpa using hk)]
      rw [ih, classifyStep_attempted]
      simp only [List.length_cons]
      omega

/-- Claim C2: a run that is never stopped early attempts exactly
`min(N, cap)` jobs, each attempt is classified into exactly one of
applied/skipped/failed (a thrown exception counting as failed), and
the returned counts satisfy
`applied + failed + skipped = min(N, cap)`. -/
theorem c2_queue_accounting (attempts : List AttemptOutcome) (cap : Nat) :
    ((processJobQueue attempts cap none).1.attempted = min attempts.length cap) ∧
      ((processJobQueue attempts cap none).1.applied
          + (processJobQueue attempts cap none).1.failed
          + (processJobQueue attempts cap none).1.skipped
        = min attempts.length cap) ∧
      (∀ a acc,
        (classifyStep a acc).applied + (classifyStep a acc).failed
            + (classifyStep a acc).skipped
          = acc.applied + acc.failed + acc.skipped + 1) ∧
      ∀ acc, (classifyStep AttemptOutcome.exn acc).failed = acc.failed + 1 := by
  have hlen : (attempts.take (min attempts.length cap)).length
      = min attempts.length cap := by
    rw [List.length_take]
    omega
  refine ⟨?_, ?_, classifyStep_sum, fun acc => rfl⟩
  · unfold processJobQueue
    rw [runLoop_none_attempted, hlen]
    simp
  · unfold processJobQueue
    rw [runLoop_none_sum, hlen]
    simp

/-- Claim C6: when `stop()` takes effect at the boundary after `k`
completed attempts (an in-flight attempt always completes, which is the
boundary after `k+1`), the loop performs exactly `k` attempts; and on
every run — cancelled or exhausted — the loop exit sets `isRunning` to
false and emits the session-complete event with the final
applied/failed counts. -/
theorem c6_cancellation (attempts : List AttemptOutcome) (cap : Nat) :
    (∀ k, k ≤ min attempts.length cap →
        (processJobQueue attempts cap (some k)).1.attempted = k) ∧
      ∀ stopAfter,
        (processJobQueue attempts cap stopAfter).2.isRunning = false ∧
          (processJobQueue attempts cap stopAfter).2.sessionComplete
            = some ((processJobQueue attempts cap stopAfter).1.applied,
                (processJobQueue attempts cap stopAfter).1.failed) := by
  constructor
  · intro k hk
    unfold processJobQueue
    rw [runLoop_stop_attempted, List.length_take]
    simp
    omega
  · intro stopAfter
    exact ⟨rfl, rfl⟩

/-- Witness for C6: stopping after 2 of 3 jobs (cap 5) attempts exactly
2 jobs, with the post-state and completion event as stated. -/
theorem c6_cancellation_witness :
    (processJobQueue attempts3 5 (some 2)).1.attempted = 2 ∧
      (processJobQueue attempts3 5 (some 2)).2.isRunning = false ∧
      (processJobQueue attempts3 5 (some 2)).2.sessionComplete
        = some ((processJobQueue attempts3 5 (some 2)).1.applied,
            (processJobQueue attempts3 5 (some 2)).1.failed) :=
  ⟨(c6_cancellation attempts3 5).1 2 (by decide),
    ((c6_cancellation attempts3 5).2 (some 2)).1,
    ((c6_cancellation attempts3 5).2 (some 2)).2⟩

/-- Claim C9: every `searchJobs` result satisfies
`hasMore = (jobs.length > 0 AND page * 20 < totalCount)` with page size
20, and the page defaults to 1 when not supplied. -/
theorem c9_hasMore (env : SearchEnv) (pageParam : Option Nat) :
    ((searchJobs env pageParam).hasMore
        = (decide (0 < (searchJobs env pageParam).jobs.length)
            && decide ((searchJobs env pageParam).page * 20
                < (searchJobs env pageParam).totalCount))) ∧
      (pageParam = none → (searchJobs env pageParam).page = 1) := by
  constructor
  · unfold searchJobs
    by_cases hl : env.listingsFound = true <;> simp [hl]
  · intro hnone
    subst hnone
    unfold searchJobs
    by_cases hl : env.listingsFound = true <;> simp [hl]

/-- Witness for C9 on a concrete search with no page supplied. -/
theorem c9_hasMore_witness :
    ((searchJobs searchEnv0 none).hasMore
        = (decide (0 < (searchJobs searchEnv0 none).jobs.length)
            && decide ((searchJobs searchEnv0 none).page * 20
                < (searchJobs searchEnv0 none).totalCount))) ∧
      (searchJobs searchEnv0 none).page = 1 :=
  ⟨(c9_hasMore searchEnv0 none).1, (c9_hasMore searchEnv0 none).2 rfl⟩

end JobSlave
